import Mathlib

/-!
Verification of `mibuild/xilinx_ise.py` (migen build-flow adapter for the
Xilinx ISE toolchain).  The Python source is shallowly embedded below:
pure text-producing functions become Lean functions on `String`, the
stateful build facade becomes explicit state passing over a `BuildState`
record, and Python exceptions become `Except`-style error results carried
next to the state.
-/

namespace Mibuild

/-- Modelled from the spec: the constraint data model of
`mibuild.generic_platform` (not under `src/`): a tagged variant over
physical-pin-location (`Pins`, carrying a list of pin identifiers),
IO-electrical-standard (`IOStandard`), drive-strength (`Drive`) and
free-form vendor text (`Misc`).  The extra `Unknown` constructor stands
for any Python object that is none of the four classes, which the
formatter's `isinstance` chain falls through. -/
inductive Constraint where
  | Pins (identifiers : List String)
  | IOStandard (name : String)
  | Drive (strength : Nat)
  | Misc (misc : String)
  | Unknown
deriving DecidableEq

/-- `_format_constraint` from `xilinx_ise.py`: the `isinstance` chain over
the four constraint classes; a Python function body that falls through all
branches returns `None`, hence the `Option`.  (`c.identifiers[0]` is
modelled with `headD`; every `Pins` value the platform constructs carries
at least one identifier, and the one built inside `_format_ucf` carries
exactly one.) -/
def _format_constraint : Constraint → Option String
  | .Pins ids => some ("LOC=" ++ ids.headD "")
  | .IOStandard n => some ("IOSTANDARD=" ++ n)
  | .Drive s => some ("DRIVE=" ++ toString s)
  | .Misc m => some m
  | .Unknown => none

/-- Resource descriptor: `resname` tuples `(name, index, optional sub-signal)`. -/
abbrev Resname := String × Nat × Option String

/-- The `fmt_r` computation inside `_format_ucf`. -/
def fmtResname (r : Resname) : String :=
  r.1 ++ ":" ++ toString r.2.1 ++ (match r.2.2 with
    | none => ""
    | some s => "." ++ s)

/-- `_format_ucf` from `xilinx_ise.py`: formats one UCF line for one signal
name and one pin, prepending a `Pins` constraint for the pin to the other
constraints and keeping only the fragments that format to something. -/
def _format_ucf (signame pin : String) (others : List Constraint) (resname : Resname) : String :=
  let fmt_c := (Constraint.Pins [pin] :: others).filterMap _format_constraint
  "NET \"" ++ signame ++ "\" " ++ String.intercalate " | " fmt_c ++ "; # " ++ fmtResname resname ++ "\n"

/-- A named signal constraint `(sig, pins, others, resname)` as iterated by
`_build_ucf`. -/
abbrev NamedSC := String × List String × List Constraint × Resname

/-- Error conditions of the embedded Python code: `IndexError` from
`pins[0]` on an empty sequence, `ValueError` from `max([])`, and the
`OSError("Subprocess failed")` raised on a nonzero toolchain exit. -/
inductive BuildErr where
  | indexError
  | valueError
  | subprocessFailed
deriving DecidableEq

/-- The body of the `for i, p in enumerate(pins)` loop in `_build_ucf`,
as a recursion carrying the running index. -/
def _ucf_vector_loop (sig : String) (others : List Constraint) (resname : Resname) :
    Nat → List String → String
  | _, [] => ""
  | i, p :: rest =>
      _format_ucf (sig ++ "(" ++ toString i ++ ")") p others resname ++
        _ucf_vector_loop sig others resname (i + 1) rest

/-- One iteration of the outer loop of `_build_ucf`: `len(pins) > 1`
expands per bit with an index suffix, otherwise `pins[0]` is used  --
raising `IndexError` when the pin sequence is empty. -/
def _ucf_entry : NamedSC → Except BuildErr String
  | (sig, pins, others, resname) =>
      if 1 < pins.length then
        .ok (_ucf_vector_loop sig others resname 0 pins)
      else
        match pins with
        | [] => .error .indexError
        | p :: _ => .ok (_format_ucf sig p others resname)

/-- The outer loop of `_build_ucf` accumulating `r`. -/
def _ucf_fold (acc : String) : List NamedSC → Except BuildErr String
  | [] => .ok acc
  | sc :: rest =>
      match _ucf_entry sc with
      | .error e => .error e
      | .ok line => _ucf_fold (acc ++ line) rest

/-- `_build_ucf` from `xilinx_ise.py`: all signal-constraint lines, then,
when the platform-constraint list is non-empty, a blank line and the
platform constraints joined by double newlines. -/
def _build_ucf (named_sc : List NamedSC) (named_pc : List String) : Except BuildErr String :=
  match _ucf_fold "" named_sc with
  | .error e => .error e
  | .ok r => .ok (if named_pc.isEmpty then r else r ++ "\n" ++ String.intercalate "\n\n" named_pc)

/-- The `prj_contents` accumulation in `_build_files`: one
`<language> work <filename>` line per source entry, in order. -/
def prj_contents (sources : List (String × String)) : String :=
  String.join (sources.map (fun fl => fl.2 ++ " work " ++ fl.1 ++ "\n"))

/-- The `xst_contents` template in `_build_files`. -/
def xst_contents (build_name device : String) : String :=
  "run\n-ifn " ++ build_name ++ ".prj\n-top top\n-ifmt MIXED\n-opt_mode SPEED\n" ++
    "-reduce_control_sets auto\n-register_balancing yes\n-ofn " ++ build_name ++
    ".ngc\n-p " ++ device

/-- `_build_files` from `xilinx_ise.py`, returning the `(filename, contents)`
pairs it writes, in write order (`.ucf`, `.prj`, `.xst`).  The `.ucf`
contents are computed before the first write, so an `IndexError` raised
there aborts before any of the three files exists. -/
def _build_files (device : String) (sources : List (String × String))
    (named_sc : List NamedSC) (named_pc : List String) (build_name : String) :
    Except BuildErr (List (String × String)) :=
  match _build_ucf named_sc named_pc with
  | .error e => .error e
  | .ok ucf =>
      .ok [(build_name ++ ".ucf", ucf),
           (build_name ++ ".prj", prj_contents sources),
           (build_name ++ ".xst", xst_contents build_name device)]

/-! ### Python `Decimal` string acceptance, for `_is_valid_version`

`Decimal(v)` accepts, after stripping leading/trailing whitespace and
removing underscores: an optional sign followed by either a numeric value
(digit coefficient with at most one decimal point, optionally an
`e`/`E` exponent with optional sign and mandatory digits) or an
infinity/NaN spelling (case-insensitive).  ASCII whitespace is modelled. -/

/-- Leading/trailing whitespace strip, as applied by `Decimal`'s parser. -/
def pyStrip (l : List Char) : List Char :=
  (((l.dropWhile Char.isWhitespace).reverse).dropWhile Char.isWhitespace).reverse

/-- Drop one leading `+`/`-` sign if present. -/
def dropSign : List Char → List Char
  | [] => []
  | c :: t => if c = '+' || c = '-' then t else c :: t

/-- Non-empty run of decimal digits. -/
def isDigitRun (l : List Char) : Bool :=
  !l.isEmpty && l.all Char.isDigit

/-- A decimal coefficient: `digits`, `digits . digits*`, or `. digits`. -/
def isCoeff (l : List Char) : Bool :=
  let ipart := l.takeWhile Char.isDigit
  let rest := l.dropWhile Char.isDigit
  match rest with
  | [] => !ipart.isEmpty
  | c :: frac => c = '.' && frac.all Char.isDigit && (!ipart.isEmpty || !frac.isEmpty)

/-- An exponent body after the `e`/`E`: optional sign then digits. -/
def isExpPart (l : List Char) : Bool :=
  isDigitRun (dropSign l)

/-- A numeric value: coefficient, optionally split by the first `e`/`E`
from an exponent part. -/
def isNumericPart (l : List Char) : Bool :=
  let mant := l.takeWhile (fun c => !(c = 'e' || c = 'E'))
  let rest := l.dropWhile (fun c => !(c = 'e' || c = 'E'))
  match rest with
  | [] => isCoeff mant
  | _ :: expPart => isCoeff mant && isExpPart expPart

/-- `inf` / `infinity`, case-insensitive. -/
def isInfinityStr (l : List Char) : Bool :=
  let w := l.map Char.toLower
  w = ['i', 'n', 'f'] || w = ['i', 'n', 'f', 'i', 'n', 'i', 't', 'y']

/-- `nan`/`snan` with optional digit payload, case-insensitive. -/
def isNanStr (l : List Char) : Bool :=
  let w := l.map Char.toLower
  (w.take 3 = ['n', 'a', 'n'] && (w.drop 3).all Char.isDigit) ||
    (w.take 4 = ['s', 'n', 'a', 'n'] && (w.drop 4).all Char.isDigit)

/-- Whether `Decimal(s)` succeeds in Python, i.e. whether the
`try: Decimal(v)` in `_is_valid_version` takes the non-exception path. -/
def isDecimalString (s : String) : Bool :=
  let t := (pyStrip s.toList).filter (fun c => c ≠ '_')
  let u := dropSign t
  isNumericPart u || isInfinityStr u || isNanStr u

/-- `_is_valid_version` from `xilinx_ise.py` on one directory entry of the
installation root, modelled as a `(name, is-directory)` pair: the name must
parse as a `Decimal` and the entry must be a directory (any exception,
i.e. a failing parse, yields `False`). -/
def _is_valid_version (e : String × Bool) : Bool :=
  isDecimalString e.1 && e.2

/-- Code-point comparison of characters, as Python compares string
elements. -/
def charLtB (a b : Char) : Bool :=
  Nat.blt a.toNat b.toNat

/-- Python's lexicographic `<` on strings: first differing code point
decides; a proper prefix is smaller. -/
def lexLtB : List Char → List Char → Bool
  | [], [] => false
  | [], _ :: _ => true
  | _ :: _, [] => false
  | a :: as, b :: bs => charLtB a b || (a = b && lexLtB as bs)

/-- Python string `a < b`. -/
def strLtB (a b : String) : Bool :=
  lexLtB a.toList b.toList

/-- Python's built-in `max` on a list of strings: `ValueError` (here
`none`) on an empty list, otherwise the fold replacing the current value
whenever the next element compares strictly greater (lexicographic by
code point). -/
def pyMax : List String → Option String
  | [] => none
  | h :: t => some (t.foldl (fun a b => if strLtB a b then b else a) h)

/-- The `vers = [...]; tools_version = max(vers)` computation of
`_run_ise`, over the directory listing of the installation root. -/
def tools_version (listing : List (String × Bool)) : Option String :=
  pyMax ((listing.filter _is_valid_version).map Prod.fst)

/-! ### The build facade as a state machine

`XilinxISEPlatform.build` mutates the process working directory and the
file system and may raise.  The state carries the working directory as a
list of path components (`os.chdir(build_dir)` with the default
single-component relative directory appends one component, `os.chdir("..")`
drops the last), the files written so far as `(name, contents)` pairs, and
the number of subprocesses spawned.  A raised exception propagates the
error next to the state reached so far, as in Python. -/

structure BuildState where
  cwd : List String
  files : List (String × String)
  spawns : Nat
deriving DecidableEq

/-- Inputs supplied by the outside world during one build: the elaborated
verilog text and constraint lists from `get_verilog`, the directory
listing of the ISE installation root, the exit code the toolchain
subprocess would return, the host pointer width in bits
(`struct.calcsize("P")*8`), and whether the host is win32/cygwin. -/
structure Env where
  vSrc : String
  namedSc : List NamedSC
  namedPc : List String
  iseListing : List (String × Bool)
  subprocessExit : Nat
  bits : Nat
  isWindows : Bool

/-- The `xilinx_settings_file` path and its `source` line in `_run_ise`:
`'%s/%s/ISE_DS/settings%d.sh' % (ise_path, tools_version, bits)`. -/
def settings_line (ise_path ver : String) (bits : Nat) : String :=
  "source " ++ ise_path ++ "/" ++ ver ++ "/ISE_DS/settings" ++ toString bits ++ ".sh\n"

/-- The fixed four-plus-one stage pipeline block of the generated build
script (xst, ngdbuild, map, par, bitgen). -/
def pipeline_script (build_name : String) : String :=
  "\nxst -ifn " ++ build_name ++ ".xst\n" ++
    "ngdbuild -uc " ++ build_name ++ ".ucf " ++ build_name ++ ".ngc " ++ build_name ++ ".ngd\n" ++
    "map -ol high -w -o " ++ build_name ++ "_map.ncd " ++ build_name ++ ".ngd " ++ build_name ++ ".pcf\n" ++
    "par -ol high -w " ++ build_name ++ "_map.ncd " ++ build_name ++ ".ncd " ++ build_name ++ ".pcf\n" ++
    "bitgen -g LCK_cycle:6 -g Binary:Yes -w " ++ build_name ++ ".ncd " ++ build_name ++ ".bit\n"

/-- The environment-sourcing prelude of `_run_ise`: on win32/cygwin
`source` is forced off; when sourcing, the version directories are
filtered and `max(vers)` raises `ValueError` on an empty list, otherwise
the settings file for the selected version is sourced. -/
def env_source_line (env : Env) (ise_path : String) (source : Bool) : Except BuildErr String :=
  let sourceEff := if env.isWindows then false else source
  if sourceEff then
    match tools_version env.iseListing with
    | none => .error .valueError
    | some v => .ok (settings_line ise_path v env.bits)
  else
    .ok ""

/-- `_run_ise` from `xilinx_ise.py` over the build state: assembles the
script contents (raising `ValueError` before any write when no version
directory is usable), writes `build_<name>.sh`, spawns the subprocess,
and raises `OSError("Subprocess failed")` on a nonzero exit. -/
def _run_ise (st : BuildState) (build_name : String) (env : Env) (ise_path : String)
    (source : Bool) : BuildState × Option BuildErr :=
  match env_source_line env ise_path source with
  | .error e => (st, some e)
  | .ok sl =>
      let script := "# Autogenerated by mibuild\nset -e\n" ++ sl ++ pipeline_script build_name
      let st1 : BuildState :=
        { st with files := st.files ++ [("build_" ++ build_name ++ ".sh", script)] }
      let st2 : BuildState := { st1 with spawns := st1.spawns + 1 }
      if env.subprocessExit = 0 then (st2, none) else (st2, some .subprocessFailed)

/-- `XilinxISEPlatform.build` from `xilinx_ise.py`: `mkdir` + `chdir` into
the build directory, write the elaborated verilog, append it to the source
list tagged `"verilog"`, emit the three build files, optionally run the
toolchain, and `chdir("..")` at the end -- which is only reached when no
exception was raised earlier. -/
def build (st : BuildState) (env : Env) (platform_sources : List (String × String))
    (device build_dir build_name ise_path : String) (source run : Bool) :
    BuildState × Option BuildErr :=
  let st1 : BuildState := { st with cwd := st.cwd ++ [build_dir] }
  let v_file := build_name ++ ".v"
  let st2 : BuildState := { st1 with files := st1.files ++ [(v_file, env.vSrc)] }
  let sources := platform_sources ++ [(v_file, "verilog")]
  match _build_files device sources env.namedSc env.namedPc build_name with
  | .error e => (st2, some e)
  | .ok fs =>
      let st3 : BuildState := { st2 with files := st2.files ++ fs }
      if run then
        let r := _run_ise st3 build_name env ise_path source
        match r.2 with
        | some e => (r.1, some e)
        | none => ({ r.1 with cwd := r.1.cwd.dropLast }, none)
      else
        ({ st3 with cwd := st3.cwd.dropLast }, none)

/-! ### Clock/reset generators -/

/-- Modelled from the spec: `platform.request` on a differential clock
resource (from `mibuild.generic_platform`, not under `src/`) returns a
record with positive and negative legs `p`/`n`; signals are identified by
name. -/
structure DiffClk where
  p : String
  n : String

/-- Modelled from the spec: requesting the differential pin pair named
`name` yields its two legs. -/
def requestDiff (name : String) : DiffClk :=
  ⟨name ++ ".p", name ++ ".n"⟩

/-- Modelled from the spec: requesting a plain (reset) pin returns the
signal of that name. -/
def requestSig (name : String) : String :=
  name

/-- A combinatorial statement driving `cd_sys.rst`: `rst.eq(~sig)` when
`inverted`, else `rst.eq(sig)`. -/
inductive CombStmt where
  | rstEq (src : String) (inverted : Bool)
deriving DecidableEq

/-- The value a reset-driving statement puts on `cd_sys.rst`, given the
value of each pin signal. -/
def CombStmt.drivenValue (s : CombStmt) (pinVal : String → Bool) : Bool :=
  match s with
  | .rstEq src inverted => if inverted then !(pinVal src) else pinVal src

/-- The platform-command text of `_add_period_constraint` for one period
value. -/
def period_cmd (period : Nat) : String :=
  "NET \"{clk}\" TNM_NET = \"GRPclk\";\nTIMESPEC \"TSclk\" = PERIOD \"GRPclk\" " ++
    toString period ++ " ns HIGH 50%;"

/-- `_add_period_constraint` from `xilinx_ise.py`: when a period is given,
one platform command is added, parameterised by the clock signal `clk`;
recorded as `(command text, clk signal)` pairs. -/
def _add_period_constraint (clk : String) (period : Option Nat) : List (String × String) :=
  match period with
  | none => []
  | some p => [(period_cmd p, clk)]

/-- The observable output of elaborating `CRG_DS`: the `reset_less` flag
of the created clock domain, the platform commands added, the `IBUFGDS`
instance ports `(I, IB, O)`, and the reset-driving combinatorial
statements. -/
structure CRGDSOut where
  reset_less : Bool
  platformCommands : List (String × String)
  ibufgds : String × String × String
  comb : List CombStmt
deriving DecidableEq

/-- `CRG_DS.__init__` from `xilinx_ise.py`: reset-less iff no reset name;
period constraint attached to the positive leg `self._clk.p`; `IBUFGDS`
wired `I ← p`, `IB ← n`, `O → cd_sys.clk`; unless reset-less, the domain
reset is driven from the requested reset pin, negated iff `rst_invert`. -/
def CRG_DS (clk_name : String) (rst_name : Option String) (period : Option Nat)
    (rst_invert : Bool) : CRGDSOut :=
  let reset_less := rst_name.isNone
  let clk := requestDiff clk_name
  { reset_less := reset_less
    platformCommands := _add_period_constraint clk.p period
    ibufgds := (clk.p, clk.n, "cd_sys.clk")
    comb :=
      match rst_name with
      | none => []
      | some r => [CombStmt.rstEq (requestSig r) rst_invert] }

/-! ### Helper lemmas -/

lemma foldl_append_init (l : List String) :
    ∀ a : String, l.foldl (fun r s => r ++ s) a = a ++ l.foldl (fun r s => r ++ s) "" := by
  induction l with
  | nil => intro a; simp
  | cons x xs ih =>
      intro a
      simp only [List.foldl_cons]
      rw [ih (a ++ x), ih ("" ++ x), String.empty_append, String.append_assoc]

lemma join_cons (s : String) (l : List String) :
    String.join (s :: l) = s ++ String.join l := by
  simp only [String.join, List.foldl_cons, String.empty_append]
  exact foldl_append_init l s

lemma format_ucf_spec (name pin : String) (others : List Constraint) (resname : Resname) :
    _format_ucf name pin others resname =
      "NET \"" ++ name ++ "\" " ++
        String.intercalate " | " (("LOC=" ++ pin) :: others.filterMap _format_constraint) ++
        "; # " ++ fmtResname resname ++ "\n" := by
  simp [_format_ucf, List.filterMap_cons, _format_constraint]

lemma vector_loop_spec (sig : String) (others : List Constraint) (resname : Resname)
    (pins : List String) :
    ∀ j : Nat,
      _ucf_vector_loop sig others resname j pins =
        String.join ((List.range pins.length).map (fun i =>
          _format_ucf (sig ++ "(" ++ toString (j + i) ++ ")") (pins.getD i "")
            others resname)) := by
  induction pins with
  | nil =>
      intro j
      simp [_ucf_vector_loop, String.join]
  | cons p rest ih =>
      intro j
      simp only [_ucf_vector_loop, List.length_cons]
      rw [List.range_succ_eq_map, List.map_cons, join_cons, ih (j + 1)]
      congr 1
      rw [List.map_map]
      apply congrArg
      apply List.map_congr_left
      intro i _
      simp only [Function.comp_apply, Nat.succ_eq_add_one, List.getD,
        List.getElem?_cons_succ]
      rw [show j + 1 + i = j + (i + 1) by omega]
      rfl

lemma ucf_entry_ok (sig : String) (pins : List String) (others : List Constraint)
    (resname : Resname) (h : pins ≠ []) :
    ∃ s, _ucf_entry (sig, pins, others, resname) = .ok s := by
  match pins, h with
  | p :: rest, _ =>
      simp only [_ucf_entry]
      split
      · exact ⟨_, rfl⟩
      · exact ⟨_, rfl⟩

lemma ucf_fold_error (l : List NamedSC) :
    ∀ acc : String, (∃ e ∈ l, e.2.1 = []) → _ucf_fold acc l = .error .indexError := by
  induction l with
  | nil => intro acc h; simp at h
  | cons sc rest ih =>
      intro acc h
      obtain ⟨e, he, hpins⟩ := h
      by_cases hsc : sc.2.1 = []
      · obtain ⟨sig, pins, others, resname⟩ := sc
        simp only at hsc
        subst hsc
        simp [_ucf_fold, _ucf_entry]
      · have he' : e ∈ rest := by
          rcases List.mem_cons.mp he with h1 | h1
          · exact absurd (h1 ▸ hpins) hsc
          · exact h1
        obtain ⟨sig, pins, others, resname⟩ := sc
        obtain ⟨s, hok⟩ := ucf_entry_ok sig pins others resname (by simpa using hsc)
        simp only [_ucf_fold, hok]
        exact ih _ ⟨e, he', hpins⟩

lemma run_ise_files (st : BuildState) (bn : String) (env : Env) (ip : String)
    (source : Bool) :
    ∃ l, (_run_ise st bn env ip source).1.files = st.files ++ l := by
  unfold _run_ise
  cases henv : env_source_line env ip source with
  | error e => exact ⟨[], by simp⟩
  | ok sl =>
      dsimp only
      split
      · exact ⟨_, rfl⟩
      · exact ⟨_, rfl⟩

lemma run_ise_cwd (st : BuildState) (bn : String) (env : Env) (ip : String)
    (source : Bool) :
    (_run_ise st bn env ip source).1.cwd = st.cwd := by
  unfold _run_ise
  cases henv : env_source_line env ip source with
  | error e => rfl
  | ok sl =>
      dsimp only
      split
      · rfl
      · rfl

/-! ### Claims -/

/-- Claim C1: the spec claims the toolchain driver selects the numerically
maximum decimal-parseable directory name, picking "14.7" from the sibling
set 13.1 / 14.7 / notaversion / 2.0.  The code computes Python's string
`max` over the parseable names, which selects "2.0" (code-point
lexicographic order) and builds the environment-setup path from "2.0". -/
theorem claim1_version_selection_bug :
    tools_version [("13.1", true), ("14.7", true), ("notaversion", true), ("2.0", true)] =
        some "2.0" ∧
    env_source_line
        ⟨"", [], [], [("13.1", true), ("14.7", true), ("notaversion", true), ("2.0", true)],
          0, 64, false⟩ "/opt/Xilinx" true =
      Except.ok "source /opt/Xilinx/2.0/ISE_DS/settings64.sh\n" ∧
    ("2.0" : String) ≠ "14.7" :=
  ⟨by decide, rfl, by decide⟩

/-- Claim C2 (counterexample): the claim that the working directory is
restored on every failure path is false.  With a nonzero toolchain exit,
`build` propagates the fatal error but the working directory remains the
build directory (`["home", "build"]`), not its pre-build value
(`["home"]`); the missing scoped release is visible in the source, where
`os.chdir("..")` is only reached on the non-raising path. -/
theorem claim2_cwd_not_restored_on_failure :
    (build ⟨["home"], [], 0⟩ ⟨"", [], [], [], 1, 64, false⟩ [] "dev" "build" "top"
        "/opt/Xilinx" false true).2 = some BuildErr.subprocessFailed ∧
    (build ⟨["home"], [], 0⟩ ⟨"", [], [], [], 1, 64, false⟩ [] "dev" "build" "top"
        "/opt/Xilinx" false true).1.cwd = ["home", "build"] ∧
    (["home", "build"] : List String) ≠ ["home"] := by
  refine ⟨rfl, rfl, by decide⟩

/-- Claim C4: end-to-end scenario with build name "top", the generated
verilog as the only source entry, and one scalar clk constraint: the
emitted `.ucf` contains the expected `NET` line and the emitted `.prj`
contains `verilog work top.v`. -/
theorem claim4_end_to_end_scenario :
    ("top.ucf", "NET \"clk\" LOC=A8 | IOSTANDARD=LVCMOS33; # clk_pin:0\n") ∈
        (build ⟨[], [], 0⟩
          ⟨"", [("clk", ["A8"], [Constraint.IOStandard "LVCMOS33"], ("clk_pin", 0, none))],
            [], [], 0, 64, false⟩
          [] "xc6slx45" "build" "top" "/opt/Xilinx" true false).1.files ∧
    ("top.prj", "verilog work top.v\n") ∈
        (build ⟨[], [], 0⟩
          ⟨"", [("clk", ["A8"], [Constraint.IOStandard "LVCMOS33"], ("clk_pin", 0, none))],
            [], [], 0, 64, false⟩
          [] "xc6slx45" "build" "top" "/opt/Xilinx" true false).1.files := by
  refine ⟨by decide, by decide⟩

/-- Claim C6: a constraint value that is none of the four recognised
variants formats to nothing (the isinstance chain falls through to
`None`), never raises, and the emitted line is exactly the line that
would be emitted with that entry absent. -/
theorem claim6_unknown_constraint_skipped (name pin : String)
    (cs ds : List Constraint) (resname : Resname) :
    _format_constraint Constraint.Unknown = none ∧
    _format_ucf name pin (cs ++ Constraint.Unknown :: ds) resname =
      _format_ucf name pin (cs ++ ds) resname := by
  refine ⟨rfl, ?_⟩
  simp [_format_ucf, List.filterMap_append, List.filterMap_cons, _format_constraint]

/-- Claim C9: `CRG_DS` with no reset name yields a reset-less clock domain
and no reset-driving statement; with a reset name and `rst_invert = true`
the single reset-driving statement drives the logical negation of the
requested reset pin's value; a supplied period attaches exactly one
period platform command, bound to the positive leg of the differential
pair only, and no period yields no command. -/
theorem claim9_crg_ds_wiring (c r : String) (per : Nat) (inv : Bool)
    (pv : String → Bool) :
    (CRG_DS c none (some per) inv).reset_less = true ∧
    (CRG_DS c none (some per) inv).comb = [] ∧
    (CRG_DS c none none inv).reset_less = true ∧
    (CRG_DS c none none inv).comb = [] ∧
    (CRG_DS c (some r) (some per) true).reset_less = false ∧
    ((CRG_DS c (some r) (some per) true).comb.map (fun s => s.drivenValue pv)) =
      [!(pv (requestSig r))] ∧
    (CRG_DS c (some r) (some per) inv).platformCommands =
      [(period_cmd per, (requestDiff c).p)] ∧
    (requestDiff c).p = c ++ ".p" ∧
    (requestDiff c).n = c ++ ".n" ∧
    (CRG_DS c (some r) none inv).platformCommands = [] := by
  refine ⟨rfl, rfl, rfl, rfl, rfl, ?_, rfl, rfl, rfl, rfl⟩
  simp [CRG_DS, CombStmt.drivenValue, requestSig]

/-- Claim C3: for a named signal constraint with a non-empty k-element pin
sequence, the constraint builder emits exactly k lines; the signal name on
line i carries the suffix `(i)` precisely when k > 1; and each line holds
one location fragment for its pin followed by one fragment per recognised
entry of the constraint list, in the list's original order. -/
theorem claim3_ucf_line_structure (sig : String) (pins : List String)
    (others : List Constraint) (resname : Resname) (h : pins ≠ []) :
    _build_ucf [(sig, pins, others, resname)] [] =
      Except.ok (String.join ((List.range pins.length).map (fun i =>
        "NET \"" ++ (if 1 < pins.length then sig ++ "(" ++ toString i ++ ")" else sig) ++
          "\" " ++ String.intercalate " | "
            (("LOC=" ++ pins.getD i "") :: others.filterMap _format_constraint) ++
          "; # " ++ fmtResname resname ++ "\n"))) := by
  match pins, h with
  | [p], _ =>
      simp [_build_ucf, _ucf_fold, _ucf_entry, format_ucf_spec, String.join,
        List.range_succ]
  | p :: q :: t, _ =>
      have h2 : 1 < (p :: q :: t).length := by simp
      simp only [_build_ucf, _ucf_fold, _ucf_entry, if_pos h2, List.isEmpty_nil,
        String.empty_append, if_true]
      rw [vector_loop_spec]
      refine congrArg (fun l => Except.ok (String.join l)) (List.map_congr_left ?_)
      intro i _
      rw [format_ucf_spec, Nat.zero_add]

/-- Claim C3 witness: the two-pin instance expands to two suffixed lines. -/
theorem claim3_ucf_line_structure_witness :
    (["P0", "P1"] : List String) ≠ [] ∧
    _build_ucf [("d", ["P0", "P1"], [Constraint.IOStandard "X"], ("r", 1, some "q"))] [] =
      Except.ok (String.join ((List.range (["P0", "P1"] : List String).length).map (fun i =>
        "NET \"" ++ (if 1 < (["P0", "P1"] : List String).length then
            "d" ++ "(" ++ toString i ++ ")" else "d") ++
          "\" " ++ String.intercalate " | "
            (("LOC=" ++ (["P0", "P1"] : List String).getD i "") ::
              ([Constraint.IOStandard "X"]).filterMap _format_constraint) ++
          "; # " ++ fmtResname ("r", 1, some "q") ++ "\n"))) :=
  ⟨by decide,
    claim3_ucf_line_structure "d" ["P0", "P1"] [Constraint.IOStandard "X"]
      ("r", 1, some "q") (by decide)⟩

/-- Claim C10: a named signal constraint with an empty pin sequence makes
the constraint-file builder raise (the `pins[0]` access), rather than
emit zero lines for that signal. -/
theorem claim10_empty_pins_error (named_sc : List NamedSC) (named_pc : List String)
    (h : ∃ e ∈ named_sc, e.2.1 = []) :
    _build_ucf named_sc named_pc = .error BuildErr.indexError := by
  unfold _build_ucf
  rw [ucf_fold_error named_sc "" h]

/-- Claim C10 witness: one empty-pin signal yields the index error. -/
theorem claim10_empty_pins_error_witness :
    (∃ e ∈ ([("sig", [], [], ("r", 0, none))] : List NamedSC), e.2.1 = []) ∧
    _build_ucf [("sig", [], [], ("r", 0, none))] [] = .error BuildErr.indexError :=
  ⟨by decide, claim10_empty_pins_error _ _ (by decide)⟩

/-- Shape of the file list after `build`: whatever else happens, the
verilog source, `.ucf`, `.prj` and `.xst` files are written (in that
order) as soon as the UCF text builds successfully. -/
lemma build_files_shape (st : BuildState) (env : Env) (srcs : List (String × String))
    (device bd bn ip : String) (source run : Bool) (u : String)
    (h : _build_ucf env.namedSc env.namedPc = Except.ok u) :
    ∃ l, (build st env srcs device bd bn ip source run).1.files =
      st.files ++ ([(bn ++ ".v", env.vSrc), (bn ++ ".ucf", u),
        (bn ++ ".prj", prj_contents (srcs ++ [(bn ++ ".v", "verilog")])),
        (bn ++ ".xst", xst_contents bn device)] ++ l) := by
  unfold build
  simp only [_build_files, h]
  by_cases hr : run
  · simp only [if_pos hr]
    cases hs : env_source_line env ip source with
    | error e =>
        simp only [_run_ise, hs]
        exact ⟨[], by simp⟩
    | ok sl =>
        simp only [_run_ise, hs]
        by_cases hx : env.subprocessExit = 0
        · simp only [if_pos hx]
          exact ⟨[("build_" ++ bn ++ ".sh",
            "# Autogenerated by mibuild\nset -e\n" ++ sl ++ pipeline_script bn)], by simp⟩
        · simp only [if_neg hx]
          exact ⟨[("build_" ++ bn ++ ".sh",
            "# Autogenerated by mibuild\nset -e\n" ++ sl ++ pipeline_script bn)], by simp⟩
  · simp only [if_neg hr]
    exact ⟨[], by simp⟩

/-- Claim C5: the emitted project file is one `<language> work <path>`
line per source entry, in source-list order, over the caller-provided
sources with the generated hardware-description file appended last,
tagged "verilog". -/
theorem claim5_project_file_lines (st : BuildState) (env : Env)
    (srcs : List (String × String)) (device bd bn ip : String) (source run : Bool)
    (u : String) (h : _build_ucf env.namedSc env.namedPc = Except.ok u) :
    (bn ++ ".prj", prj_contents (srcs ++ [(bn ++ ".v", "verilog")])) ∈
        (build st env srcs device bd bn ip source run).1.files ∧
    prj_contents (srcs ++ [(bn ++ ".v", "verilog")]) =
      String.join ((srcs ++ [(bn ++ ".v", "verilog")]).map
        (fun fl => fl.2 ++ " work " ++ fl.1 ++ "\n")) ∧
    (srcs ++ [(bn ++ ".v", "verilog")]).getLast? = some (bn ++ ".v", "verilog") := by
  refine ⟨?_, rfl, by simp⟩
  obtain ⟨l, hl⟩ := build_files_shape st env srcs device bd bn ip source run u h
  rw [hl]
  simp

/-- Claim C5 witness: concrete instance with one caller source. -/
theorem claim5_project_file_lines_witness :
    _build_ucf ([] : List NamedSC) ([] : List String) = Except.ok "" ∧
    (("top" ++ ".prj"), prj_contents ([("extra.v", "verilog")] ++ [("top" ++ ".v", "verilog")])) ∈
        (build ⟨[], [], 0⟩ ⟨"", [], [], [], 0, 64, false⟩ [("extra.v", "verilog")]
          "dev" "build" "top" "/opt/Xilinx" true true).1.files ∧
    prj_contents ([("extra.v", "verilog")] ++ [("top" ++ ".v", "verilog")]) =
      String.join (([("extra.v", "verilog")] ++ [("top" ++ ".v", "verilog")]).map
        (fun fl => fl.2 ++ " work " ++ fl.1 ++ "\n")) ∧
    ([("extra.v", "verilog")] ++ [("top" ++ ".v", "verilog")]).getLast? =
      some ("top" ++ ".v", "verilog") :=
  ⟨rfl,
    claim5_project_file_lines ⟨[], [], 0⟩ ⟨"", [], [], [], 0, 64, false⟩
      [("extra.v", "verilog")] "dev" "build" "top" "/opt/Xilinx" true true "" rfl⟩

/-- Claim C7: with run disabled the build writes the verilog source,
constraint, project and synthesis-options files, spawns no subprocess and
raises nothing; with run enabled and a nonzero toolchain exit the fatal
subprocess error is raised and propagated to the caller. -/
theorem claim7_run_flag_behavior (st : BuildState) (env : Env)
    (srcs : List (String × String)) (device bd bn ip : String) (source : Bool)
    (u sl : String) (h : _build_ucf env.namedSc env.namedPc = Except.ok u)
    (hs : env_source_line env ip source = Except.ok sl)
    (hx : env.subprocessExit ≠ 0) :
    (build st env srcs device bd bn ip source false).2 = none ∧
    (build st env srcs device bd bn ip source false).1.spawns = st.spawns ∧
    (build st env srcs device bd bn ip source false).1.files =
      st.files ++ [(bn ++ ".v", env.vSrc), (bn ++ ".ucf", u),
        (bn ++ ".prj", prj_contents (srcs ++ [(bn ++ ".v", "verilog")])),
        (bn ++ ".xst", xst_contents bn device)] ∧
    (build st env srcs device bd bn ip source true).2 = some BuildErr.subprocessFailed := by
  refine ⟨?_, ?_, ?_, ?_⟩
  · unfold build; simp only [_build_files, h]; simp
  · unfold build; simp only [_build_files, h]; simp
  · unfold build; simp only [_build_files, h]; simp
  · unfold build
    simp only [_build_files, h, _run_ise, hs, if_neg hx]
    simp

/-- Claim C7 witness: concrete build with exit status 1. -/
theorem claim7_run_flag_behavior_witness :
    (build ⟨[], [], 0⟩ ⟨"", [], [], [], 1, 64, false⟩ [] "dev" "build" "top"
        "/opt/Xilinx" false false).2 = none ∧
    (build ⟨[], [], 0⟩ ⟨"", [], [], [], 1, 64, false⟩ [] "dev" "build" "top"
        "/opt/Xilinx" false false).1.spawns = (⟨[], [], 0⟩ : BuildState).spawns ∧
    (build ⟨[], [], 0⟩ ⟨"", [], [], [], 1, 64, false⟩ [] "dev" "build" "top"
        "/opt/Xilinx" false false).1.files =
      (⟨[], [], 0⟩ : BuildState).files ++ [("top" ++ ".v", ""), ("top" ++ ".ucf", ""),
        ("top" ++ ".prj", prj_contents ([] ++ [("top" ++ ".v", "verilog")])),
        ("top" ++ ".xst", xst_contents "top" "dev")] ∧
    (build ⟨[], [], 0⟩ ⟨"", [], [], [], 1, 64, false⟩ [] "dev" "build" "top"
        "/opt/Xilinx" false true).2 = some BuildErr.subprocessFailed :=
  claim7_run_flag_behavior ⟨[], [], 0⟩ ⟨"", [], [], [], 1, 64, false⟩ [] "dev" "build"
    "top" "/opt/Xilinx" false "" "" rfl rfl (by decide)

/-- Claim C8: when environment sourcing is requested (off Windows) and no
entry of the installation root qualifies as a valid version directory,
the toolchain driver raises the `ValueError` from `max([])` before
writing the build script or spawning anything, leaving the state
untouched. -/
theorem claim8_no_valid_version_error (st : BuildState) (bn ip : String) (env : Env)
    (h : env.iseListing.filter _is_valid_version = []) (hw : env.isWindows = false) :
    _run_ise st bn env ip true = (st, some BuildErr.valueError) := by
  simp [_run_ise, env_source_line, tools_version, pyMax, hw, h]

/-- Claim C8 witness: a root with only a non-version entry fails fatally. -/
theorem claim8_no_valid_version_error_witness :
    ([("notaversion", true)].filter _is_valid_version = ([] : List (String × Bool))) ∧
    _run_ise ⟨[], [], 0⟩ "top" ⟨"", [], [], [("notaversion", true)], 0, 64, false⟩
        "/opt/Xilinx" true = (⟨[], [], 0⟩, some BuildErr.valueError) :=
  ⟨by decide,
    claim8_no_valid_version_error ⟨[], [], 0⟩ "top" "/opt/Xilinx"
      ⟨"", [], [], [("notaversion", true)], 0, 64, false⟩ (by decide) rfl⟩

/-- Claim C2 (amended): on every non-raising path (run disabled, or run
enabled with a zero exit status) the working directory is restored to its
pre-build value; but when the toolchain subprocess exits nonzero the
fatal error propagates and the working directory is left inside the build
directory, not restored. -/
theorem claim2_amended_cwd_restoration (st : BuildState) (env : Env)
    (srcs : List (String × String)) (device bd bn ip : String) (source : Bool)
    (u sl : String) (h : _build_ucf env.namedSc env.namedPc = Except.ok u)
    (hs : env_source_line env ip source = Except.ok sl) :
    ((build st env srcs device bd bn ip source false).1.cwd = st.cwd ∧
      (build st env srcs device bd bn ip source false).2 = none) ∧
    (env.subprocessExit = 0 →
      (build st env srcs device bd bn ip source true).1.cwd = st.cwd ∧
      (build st env srcs device bd bn ip source true).2 = none) ∧
    (env.subprocessExit ≠ 0 →
      (build st env srcs device bd bn ip source true).1.cwd = st.cwd ++ [bd] ∧
      (build st env srcs device bd bn ip source true).2 = some BuildErr.subprocessFailed) := by
  refine ⟨⟨?_, ?_⟩, fun hx => ⟨?_, ?_⟩, fun hx => ⟨?_, ?_⟩⟩
  · unfold build; simp only [_build_files, h]; simp
  · unfold build; simp only [_build_files, h]; simp
  · unfold build; simp only [_build_files, h, _run_ise, hs, if_pos hx]; simp
  · unfold build; simp only [_build_files, h, _run_ise, hs, if_pos hx]; simp
  · unfold build; simp only [_build_files, h, _run_ise, hs, if_neg hx]; simp
  · unfold build; simp only [_build_files, h, _run_ise, hs, if_neg hx]; simp

/-- Claim C2 (amended) witness: a zero-exit build restores the directory,
a failing build leaves it inside the build directory. -/
theorem claim2_amended_cwd_restoration_witness :
    ((build ⟨["home"], [], 0⟩ ⟨"", [], [], [], 0, 64, false⟩ [] "dev" "build" "top"
        "/opt/Xilinx" false true).1.cwd = (⟨["home"], [], 0⟩ : BuildState).cwd ∧
      (build ⟨["home"], [], 0⟩ ⟨"", [], [], [], 0, 64, false⟩ [] "dev" "build" "top"
        "/opt/Xilinx" false true).2 = none) ∧
    ((build ⟨["home"], [], 0⟩ ⟨"", [], [], [], 1, 64, false⟩ [] "dev" "build" "top"
        "/opt/Xilinx" false true).1.cwd = (⟨["home"], [], 0⟩ : BuildState).cwd ++ ["build"] ∧
      (build ⟨["home"], [], 0⟩ ⟨"", [], [], [], 1, 64, false⟩ [] "dev" "build" "top"
        "/opt/Xilinx" false true).2 = some BuildErr.subprocessFailed) :=
  ⟨(claim2_amended_cwd_restoration ⟨["home"], [], 0⟩ ⟨"", [], [], [], 0, 64, false⟩ []
      "dev" "build" "top" "/opt/Xilinx" false "" "" rfl rfl).2.1 rfl,
    (claim2_amended_cwd_restoration ⟨["home"], [], 0⟩ ⟨"", [], [], [], 1, 64, false⟩ []
      "dev" "build" "top" "/opt/Xilinx" false "" "" rfl rfl).2.2 (by decide)⟩

end Mibuild
